import Mathlib

/-!
Verification of the WordDash web client (src/src/app/page.tsx).

The client is a single React component.  Its state is the collection of
useState hooks; inbound socket events mutate that state through the
handlers registered in the main effect, and outbound commands are the
socket.emit calls guarded by local precondition checks.  We embed the
state as a record, each socket handler as a case of an explicit
transition function on that record, and each derived value
(sortedPlayers, roundProgress, previewDisplay) as a pure function,
following the TypeScript source line by line.  JavaScript numbers that
hold timestamps, durations and scores are integers in the source and are
embedded as Int; the one float-valued expression (the progress ratio) is
embedded as an exact rational.  String helpers (trim, toUpperCase,
toLowerCase, split, join) are embedded as structurally recursive
functions on the character list with the same ASCII semantics.
-/

namespace WordDash

/-- Room lifecycle status, source line 6. -/
inductive RoomStatus
  | lobby
  | in_game
  | finished
deriving DecidableEq

/-- Reason a round ended, source line 7. -/
inductive RoundEndReason
  | time_up
  | guessed
  | host_ended
deriving DecidableEq

/-- Player record, source lines 9-15.  Scores are integers in the server
payloads. -/
structure Player where
  id : String
  nickname : String
  score : Int
  connected : Bool
  isHost : Bool
deriving DecidableEq

/-- Active round payload, source lines 17-22. -/
structure RoundState where
  display : String
  hint : String
  roundEndsAt : Int
  roundDurationMs : Int
deriving DecidableEq

/-- Round summary payload, source lines 24-30. -/
structure RoundEnd where
  reason : RoundEndReason
  word : String
  winnerPlayerId : Option String
  winnerNickname : Option String
  pointsAwarded : Int
deriving DecidableEq

/-- One review-table row, source lines 32-38. -/
structure ReviewRow where
  word : String
  winnerPlayerId : Option String
  winnerNickname : Option String
  pointsAwarded : Int
  reason : RoundEndReason
deriving DecidableEq

/-- Match result payload, source lines 40-44. -/
structure GameEnded where
  rankings : List Player
  winners : List String
  reviewRows : List ReviewRow
deriving DecidableEq

/-- Guess feedback status, source line 47. -/
inductive GuessStatus
  | correct
  | incorrect
deriving DecidableEq

/-- Guess feedback, source lines 46-49. -/
structure GuessFeedback where
  status : GuessStatus
  message : String
deriving DecidableEq

/-- JavaScript s.trim (): drop leading and trailing whitespace.
Embedded structurally over the character list. -/
def jsTrim (s : String) : String :=
  String.mk (((s.toList.dropWhile Char.isWhitespace).reverse.dropWhile
    Char.isWhitespace).reverse)

/-- JavaScript s.toUpperCase () restricted to its ASCII behaviour. -/
def jsToUpper (s : String) : String :=
  String.mk (s.toList.map Char.toUpper)

/-- JavaScript s.toLowerCase () restricted to its ASCII behaviour. -/
def jsToLower (s : String) : String :=
  String.mk (s.toList.map Char.toLower)

/-- The component state: one field per useState hook, source lines
95-116.  The socket handle itself is kept outside (it carries no data
beyond readiness, which the command functions take as an argument). -/
structure ClientState where
  nickname : String
  roomCodeInput : String
  roomCode : String
  playerId : String
  roomStatus : RoomStatus
  players : List Player
  isConnected : Bool
  isJoined : Bool
  globalSeconds : Int
  round : Option RoundState
  roundRemainingMs : Int
  roundEnd : Option RoundEnd
  ended : Option GameEnded
  guessFeedback : Option GuessFeedback
  copyStatus : String
  guess : String
  error : String
  busy : Bool
deriving DecidableEq

/-- The useState initial values, source lines 95-116; roomCodeInput is
seeded from the "room" URL parameter upper-cased (lines 96-100). -/
def initialState (roomParam : Option String) : ClientState where
  nickname := ""
  roomCodeInput := jsToUpper (roomParam.getD "")
  roomCode := ""
  playerId := ""
  roomStatus := RoomStatus.lobby
  players := []
  isConnected := false
  isJoined := false
  globalSeconds := 180
  round := none
  roundRemainingMs := 0
  roundEnd := none
  ended := none
  guessFeedback := none
  copyStatus := ""
  guess := ""
  error := ""
  busy := false

/-- Inbound socket events, one constructor per socket.on registration,
source lines 151-240. -/
inductive Event
  | connect
  | disconnect
  | serverError (message : Option String)
  | roomState (roomCode : String) (status : RoomStatus) (players : List Player)
  | gameStarted
  | gameTick (remainingSeconds : Int)
  | gameRound (display : String) (hint : String) (roundEndsAt : Int)
      (roundDurationMs : Int)
  | gameRoundEnded (payload : RoundEnd)
  | gameEnded (payload : GameEnded)
  | guessResult (status : GuessStatus) (points : Option Int)
deriving DecidableEq

/-- The event dispatcher: each case is the body of the corresponding
socket.on handler, source lines 151-240. -/
def applyEvent (s : ClientState) : Event → ClientState
  | Event.connect =>
      { s with isConnected := true, error := "" }
  | Event.disconnect =>
      { s with isConnected := false }
  | Event.serverError message =>
      { s with error := message.getD "Unexpected server error", busy := false }
  | Event.roomState code status ps =>
      let s1 := { s with roomCode := code, roomStatus := status, players := ps }
      if status = RoomStatus.lobby then
        { s1 with round := none, roundEnd := none, ended := none,
                  guessFeedback := none, roundRemainingMs := 0,
                  globalSeconds := 180 }
      else s1
  | Event.gameStarted =>
      { s with roomStatus := RoomStatus.in_game, roundEnd := none,
               ended := none, guessFeedback := none, copyStatus := "" }
  | Event.gameTick remainingSeconds =>
      { s with globalSeconds := remainingSeconds }
  | Event.gameRound display hint roundEndsAt roundDurationMs =>
      { s with round := some ⟨display, hint, roundEndsAt, roundDurationMs⟩,
               roundRemainingMs := roundDurationMs, roundEnd := none,
               guessFeedback := none, guess := "" }
  | Event.gameRoundEnded payload =>
      { s with round := none, roundRemainingMs := 0, roundEnd := some payload,
               guessFeedback := none, guess := "" }
  | Event.gameEnded payload =>
      { s with roomStatus := RoomStatus.finished, ended := some payload,
               round := none, roundRemainingMs := 0, roundEnd := none,
               guessFeedback := none, globalSeconds := 0, guess := "" }
  | Event.guessResult status points =>
      { s with guessFeedback := some (
          match status with
          | GuessStatus.correct =>
              ⟨GuessStatus.correct,
               "CORRECT! +" ++ toString (points.getD 10) ++ " POINTS"⟩
          | GuessStatus.incorrect =>
              ⟨GuessStatus.incorrect, "NOPE. TRY AGAIN."⟩) }

/-- Fold a sequence of inbound events over a state. -/
def applyEvents (s : ClientState) (es : List Event) : ClientState :=
  es.foldl applyEvent s

/-- C1: a room snapshot totally replaces code, status and player list, and
applying the same snapshot twice yields a state identical to applying it
once. -/
theorem roomState_replace_idempotent (s : ClientState) (code : String)
    (status : RoomStatus) (ps : List Player) :
    (applyEvent s (Event.roomState code status ps)).roomCode = code ∧
    (applyEvent s (Event.roomState code status ps)).roomStatus = status ∧
    (applyEvent s (Event.roomState code status ps)).players = ps ∧
    applyEvent (applyEvent s (Event.roomState code status ps))
        (Event.roomState code status ps)
      = applyEvent s (Event.roomState code status ps) := by
  cases status <;> exact ⟨rfl, rfl, rfl, rfl⟩

/-- C5: a snapshot with status lobby clears Round, RoundEnd, MatchResult
and GuessFeedback whatever the prior state was. -/
theorem lobby_snapshot_resets (s : ClientState) (code : String)
    (ps : List Player) :
    (applyEvent s (Event.roomState code RoomStatus.lobby ps)).round = none ∧
    (applyEvent s (Event.roomState code RoomStatus.lobby ps)).roundEnd = none ∧
    (applyEvent s (Event.roomState code RoomStatus.lobby ps)).ended = none ∧
    (applyEvent s (Event.roomState code RoomStatus.lobby ps)).guessFeedback
      = none := by
  exact ⟨rfl, rfl, rfl, rfl⟩

/-- C9: a transport disconnect only lowers the connectivity flag; room
code, status, players, round, round summary and match result are kept. -/
theorem disconnect_only_connectivity (s : ClientState) :
    (applyEvent s Event.disconnect).isConnected = false ∧
    (applyEvent s Event.disconnect).roomCode = s.roomCode ∧
    (applyEvent s Event.disconnect).roomStatus = s.roomStatus ∧
    (applyEvent s Event.disconnect).players = s.players ∧
    (applyEvent s Event.disconnect).round = s.round ∧
    (applyEvent s Event.disconnect).roundEnd = s.roundEnd ∧
    (applyEvent s Event.disconnect).ended = s.ended := by
  exact ⟨rfl, rfl, rfl, rfl, rfl, rfl, rfl⟩

/-- Helper for C2: every single event preserves mutual exclusivity of the
round and the round summary. -/
theorem applyEvent_round_roundEnd_excl (s : ClientState) (e : Event)
    (h : s.round = none ∨ s.roundEnd = none) :
    (applyEvent s e).round = none ∨ (applyEvent s e).roundEnd = none := by
  cases e with
  | roomState code status ps =>
      cases status with
      | lobby => exact Or.inl rfl
      | in_game => exact h
      | finished => exact h
  | connect => exact h
  | disconnect => exact h
  | serverError message => exact h
  | gameStarted => exact Or.inr rfl
  | gameTick remainingSeconds => exact h
  | gameRound display hint roundEndsAt roundDurationMs => exact Or.inr rfl
  | gameRoundEnded payload => exact Or.inl rfl
  | gameEnded payload => exact Or.inl rfl
  | guessResult status points => exact h

/-- C2 counterexample: after the single event sequence consisting of a
snapshot with status in_game, the status is in_game and no RoundEnd is
pending, yet no Round exists, so the claimed biconditional fails on a
reachable state. -/
theorem round_iff_in_game_counterexample :
    ¬ (((applyEvents (initialState none)
          [Event.roomState "AB" RoomStatus.in_game []]).round).isSome ↔
       ((applyEvents (initialState none)
          [Event.roomState "AB" RoomStatus.in_game []]).roomStatus
            = RoomStatus.in_game ∧
        (applyEvents (initialState none)
          [Event.roomState "AB" RoomStatus.in_game []]).roundEnd = none)) := by
  decide

/-- C2 amended: in every client state reachable from the initial state by
any sequence of inbound events, Round and RoundEnd are mutually exclusive
(never both present).  The biconditional with the room status does not
hold: a snapshot can set status in_game while no Round is present. -/
theorem round_roundEnd_mutually_exclusive (roomParam : Option String)
    (es : List Event) :
    (applyEvents (initialState roomParam) es).round = none ∨
    (applyEvents (initialState roomParam) es).roundEnd = none := by
  suffices h : ∀ (l : List Event) (s : ClientState),
      (s.round = none ∨ s.roundEnd = none) →
      ((applyEvents s l).round = none ∨ (applyEvents s l).roundEnd = none) by
    exact h es (initialState roomParam) (Or.inl rfl)
  intro l
  induction l with
  | nil => intro s hs; exact hs
  | cons e rest ih =>
      intro s hs
      exact ih (applyEvent s e) (applyEvent_round_roundEnd_excl s e hs)

/-- The round tick effect body, source lines 248-255: remaining time is
recomputed from the absolute deadline as max (0, roundEndsAt - now). -/
def tickRemaining (roundEndsAt now : Int) : Int :=
  max 0 (roundEndsAt - now)

/-- One firing of the round interval: when a round is present, the stored
remaining time is replaced by the recomputed value (source lines 248-255;
the effect is not installed when round is null). -/
def applyTick (s : ClientState) (now : Int) : ClientState :=
  match s.round with
  | none => s
  | some r => { s with roundRemainingMs := tickRemaining r.roundEndsAt now }

/-- The roundProgress memo, source lines 131-134: 0 when no round or a
non-positive duration, otherwise the ratio clamped into [0, 1].  The
JavaScript float division is embedded as exact rational division. -/
def roundProgress (round : Option RoundState) (roundRemainingMs : Int) : ℚ :=
  match round with
  | none => 0
  | some r =>
      if r.roundDurationMs ≤ 0 then 0
      else min 1 (max 0 ((roundRemainingMs : ℚ) / (r.roundDurationMs : ℚ)))

/-- C4: with a round of positive duration, each tick stores exactly
max (0, roundEndsAt - now), which is never negative and is 0 at the
deadline; the progress ratio is the remaining time over the duration
clamped into [0, 1], equal to 1 at full remaining time and 0 at none. -/
theorem round_clock_spec (s : ClientState) (r : RoundState) (now : Int)
    (hr : s.round = some r) (hD : 0 < r.roundDurationMs) :
    (applyTick s now).roundRemainingMs = max 0 (r.roundEndsAt - now) ∧
    0 ≤ (applyTick s now).roundRemainingMs ∧
    (applyTick s r.roundEndsAt).roundRemainingMs = 0 ∧
    roundProgress s.round ((applyTick s now).roundRemainingMs)
      = min 1 (max 0 ((((applyTick s now).roundRemainingMs : ℚ))
          / (r.roundDurationMs : ℚ)) ) ∧
    roundProgress s.round r.roundDurationMs = 1 ∧
    roundProgress s.round 0 = 0 := by
  have hD' : ¬ r.roundDurationMs ≤ 0 := by omega
  have hQ : (r.roundDurationMs : ℚ) ≠ 0 := by
    exact_mod_cast (by omega : r.roundDurationMs ≠ 0)
  refine ⟨?_, ?_, ?_, ?_, ?_, ?_⟩
  · simp [applyTick, hr, tickRemaining]
  · simp [applyTick, hr, tickRemaining]
  · simp [applyTick, hr, tickRemaining]
  · simp [roundProgress, hr, hD']
  · simp [roundProgress, hr, hD', div_self hQ]
  · simp [roundProgress, hr, hD']

/-- C4 witness: the theorem instantiated at a concrete state holding a
round with deadline 5000 and duration 5000, polled at time 0. -/
theorem round_clock_spec_witness :
    ({ initialState none with
        round := some ⟨"_ W _", "hint", 5000, 5000⟩ } : ClientState).round
      = some (⟨"_ W _", "hint", 5000, 5000⟩ : RoundState) ∧
    (0 : Int) < (⟨"_ W _", "hint", 5000, 5000⟩ : RoundState).roundDurationMs ∧
    ((applyTick { initialState none with
        round := some ⟨"_ W _", "hint", 5000, 5000⟩ } 0).roundRemainingMs
      = max 0 ((5000 : Int) - 0) ∧
     0 ≤ (applyTick { initialState none with
        round := some ⟨"_ W _", "hint", 5000, 5000⟩ } 0).roundRemainingMs ∧
     (applyTick { initialState none with
        round := some ⟨"_ W _", "hint", 5000, 5000⟩ } 5000).roundRemainingMs
       = 0 ∧
     roundProgress ({ initialState none with
        round := some ⟨"_ W _", "hint", 5000, 5000⟩ } : ClientState).round
        ((applyTick { initialState none with
            round := some ⟨"_ W _", "hint", 5000, 5000⟩ } 0).roundRemainingMs)
       = min 1 (max 0 (((applyTick { initialState none with
            round := some ⟨"_ W _", "hint", 5000, 5000⟩ } 0).roundRemainingMs
              : ℚ) / ((5000 : Int) : ℚ))) ∧
     roundProgress ({ initialState none with
        round := some ⟨"_ W _", "hint", 5000, 5000⟩ } : ClientState).round 5000
       = 1 ∧
     roundProgress ({ initialState none with
        round := some ⟨"_ W _", "hint", 5000, 5000⟩ } : ClientState).round 0
       = 0) :=
  ⟨rfl, by decide,
   round_clock_spec { initialState none with
      round := some ⟨"_ W _", "hint", 5000, 5000⟩ }
    ⟨"_ W _", "hint", 5000, 5000⟩ 0 rfl (by decide)⟩

/-- C10: the progress ratio is total: it is 0 whenever no round is
present, and 0 whenever the duration is non-positive, so the division is
never taken with a non-positive divisor. -/
theorem roundProgress_total (rd : RoundState) (rem : Int)
    (h : rd.roundDurationMs ≤ 0) :
    roundProgress none rem = 0 ∧ roundProgress (some rd) rem = 0 := by
  constructor
  · rfl
  · simp [roundProgress, h]

/-- C10 witness: the theorem instantiated at a round of duration 0 and a
positive stored remaining time. -/
theorem roundProgress_total_witness :
    (⟨"", "", 7, 0⟩ : RoundState).roundDurationMs ≤ 0 ∧
    (roundProgress none 5 = 0 ∧
     roundProgress (some (⟨"", "", 7, 0⟩ : RoundState)) 5 = 0) :=
  ⟨by decide, roundProgress_total ⟨"", "", 7, 0⟩ 5 (by decide)⟩

/-- JavaScript s.split (" ") with a one-space separator: auxiliary walk
over the characters, cur holding the current piece reversed. -/
def splitOnSpaceAux : List Char → List Char → List String
  | cur, [] => [String.mk cur.reverse]
  | cur, c :: rest =>
      if c = ' ' then String.mk cur.reverse :: splitOnSpaceAux [] rest
      else splitOnSpaceAux (c :: cur) rest

/-- JavaScript baseDisplay.split (" "), source line 79. -/
def splitOnSpace (s : String) : List String :=
  splitOnSpaceAux [] s.toList

/-- JavaScript tokens.join (" "), source line 89. -/
def joinSpace : List String → String
  | [] => ""
  | [t] => t
  | t :: rest => t ++ " " ++ joinSpace rest

/-- The normalised typed guess, source line 81:
typedGuess.trim ().toUpperCase ().replace (backslash-s+, "").  Removing
every whitespace character subsumes the trim; upper-casing commutes with
the whitespace removal, so the net effect is per-character upper-casing
followed by dropping whitespace. -/
def normalizeGuess (typedGuess : String) : List Char :=
  (typedGuess.toList.map Char.toUpper).filter (fun c => !c.isWhitespace)

/-- The test on line 85: the regular expression A-Z applied to one
character. -/
def isUpperAlpha (c : Char) : Bool :=
  'A' ≤ c && c ≤ 'Z'

/-- The for loop of source lines 83-88, expressed as a walk carrying the
index: token idx is replaced by the typed character at the same index
when 1 ≤ idx < n - 1 and that character exists and is A-Z, n being the
total token count. -/
def applyGuessFrom (n : Nat) (typed : List Char) : Nat → List String →
    List String
  | _, [] => []
  | idx, tok :: rest =>
      (if 1 ≤ idx ∧ idx + 1 < n then
        match typed.get? idx with
        | some c => if isUpperAlpha c then String.singleton c else tok
        | none => tok
      else tok) :: applyGuessFrom n typed (idx + 1) rest

/-- previewDisplay, source lines 78-90. -/
def previewDisplay (baseDisplay typedGuess : String) : String :=
  let tokens := splitOnSpace baseDisplay
  if tokens.length ≤ 2 then baseDisplay
  else joinSpace (applyGuessFrom tokens.length (normalizeGuess typedGuess)
    0 tokens)

/-- Helper for C3: the length of the rewritten token list. -/
theorem applyGuessFrom_length (n : Nat) (typed : List Char) :
    ∀ (toks : List String) (start : Nat),
      (applyGuessFrom n typed start toks).length = toks.length := by
  intro toks
  induction toks with
  | nil => intro start; rfl
  | cons tok rest ih =>
      intro start
      simp [applyGuessFrom, ih (start + 1)]

/-- Helper for C3: pointwise description of the rewritten token list. -/
theorem applyGuessFrom_get? (n : Nat) (typed : List Char) :
    ∀ (toks : List String) (start i : Nat),
      (applyGuessFrom n typed start toks).get? i =
        (toks.get? i).map (fun tok =>
          if 1 ≤ start + i ∧ start + i + 1 < n then
            match typed.get? (start + i) with
            | some c => if isUpperAlpha c then String.singleton c else tok
            | none => tok
          else tok) := by
  intro toks
  induction toks with
  | nil => intro start i; simp [applyGuessFrom]
  | cons tok rest ih =>
      intro start i
      cases i with
      | zero => simp [applyGuessFrom]
      | succ j =>
          have h := ih (start + 1) j
          have harith : start + 1 + j = start + (j + 1) := by omega
          rw [harith] at h
          simpa [applyGuessFrom] using h

/-- C3: on a display pattern of more than two tokens, the preview is the
space-join of a token list of the same length in which the first and last
tokens are the originals, and each interior token at index i is replaced
by the normalised typed character at index i when that character exists
and is A-Z, and is left untouched otherwise (in particular when the typed
character is non-alphabetic or absent). -/
theorem previewDisplay_interior_only (base g : String)
    (h : 2 < (splitOnSpace base).length) :
    previewDisplay base g
      = joinSpace (applyGuessFrom (splitOnSpace base).length
          (normalizeGuess g) 0 (splitOnSpace base)) ∧
    (applyGuessFrom (splitOnSpace base).length (normalizeGuess g) 0
        (splitOnSpace base)).length = (splitOnSpace base).length ∧
    (applyGuessFrom (splitOnSpace base).length (normalizeGuess g) 0
        (splitOnSpace base)).get? 0 = (splitOnSpace base).get? 0 ∧
    (applyGuessFrom (splitOnSpace base).length (normalizeGuess g) 0
        (splitOnSpace base)).get? ((splitOnSpace base).length - 1)
      = (splitOnSpace base).get? ((splitOnSpace base).length - 1) ∧
    (∀ i, 1 ≤ i → i + 1 < (splitOnSpace base).length →
      (applyGuessFrom (splitOnSpace base).length (normalizeGuess g) 0
          (splitOnSpace base)).get? i
        = ((splitOnSpace base).get? i).map (fun tok =>
            match (normalizeGuess g).get? i with
            | some c => if isUpperAlpha c then String.singleton c else tok
            | none => tok)) := by
  refine ⟨?_, ?_, ?_, ?_, ?_⟩
  · unfold previewDisplay
    rw [if_neg (by omega)]
  · exact applyGuessFrom_length _ _ _ _
  · rw [applyGuessFrom_get? _ _ _ 0 0]
    have : ¬ (1 ≤ 0 + 0 ∧ 0 + 0 + 1 < (splitOnSpace base).length) := by omega
    simp [this]
  · rw [applyGuessFrom_get? _ _ _ 0 ((splitOnSpace base).length - 1)]
    have hno : ¬ ((splitOnSpace base).length - 1 + 1
        < (splitOnSpace base).length) := by omega
    simp [hno]
  · intro i h1 h2
    rw [applyGuessFrom_get? _ _ _ 0 i]
    simp [h1, h2]

/-- C3 witness: the theorem instantiated at the five-token pattern
"# A B C #" and the three-character typed guess "x!z", whose normalised
form holds the non-alphabetic character at index 1: token 1 keeps its
mask character, token 2 becomes Z, token 3 has no matching typed
character and is untouched, and both delimiters are preserved. -/
theorem previewDisplay_interior_only_witness :
    2 < (splitOnSpace "# A B C #").length ∧
    (previewDisplay "# A B C #" "x!z"
      = joinSpace (applyGuessFrom (splitOnSpace "# A B C #").length
          (normalizeGuess "x!z") 0 (splitOnSpace "# A B C #")) ∧
    (applyGuessFrom (splitOnSpace "# A B C #").length
        (normalizeGuess "x!z") 0 (splitOnSpace "# A B C #")).length
      = (splitOnSpace "# A B C #").length ∧
    (applyGuessFrom (splitOnSpace "# A B C #").length
        (normalizeGuess "x!z") 0 (splitOnSpace "# A B C #")).get? 0
      = (splitOnSpace "# A B C #").get? 0 ∧
    (applyGuessFrom (splitOnSpace "# A B C #").length
        (normalizeGuess "x!z") 0 (splitOnSpace "# A B C #")).get?
          ((splitOnSpace "# A B C #").length - 1)
      = (splitOnSpace "# A B C #").get?
          ((splitOnSpace "# A B C #").length - 1) ∧
    (∀ i, 1 ≤ i → i + 1 < (splitOnSpace "# A B C #").length →
      (applyGuessFrom (splitOnSpace "# A B C #").length
          (normalizeGuess "x!z") 0 (splitOnSpace "# A B C #")).get? i
        = ((splitOnSpace "# A B C #").get? i).map (fun tok =>
            match (normalizeGuess "x!z").get? i with
            | some c => if isUpperAlpha c then String.singleton c else tok
            | none => tok))) :=
  ⟨by decide, previewDisplay_interior_only "# A B C #" "x!z" (by decide)⟩

/-- The comparator of source line 124, (a, b) => b.score - a.score, as
the total preorder it induces: a may precede b exactly when the
comparator is non-positive, that is when b.score ≤ a.score. -/
def playerLe (a b : Player) : Bool :=
  b.score ≤ a.score

/-- The sortedPlayers memo, source lines 123-126.  ECMAScript
Array.prototype.sort is required to be stable, and with a consistent
comparator its result is the unique stable sort, so the copy-and-sort is
embedded as the stable merge sort under playerLe. -/
def sortedPlayers (players : List Player) : List Player :=
  players.mergeSort playerLe

/-- Helper for C6: playerLe is transitive. -/
theorem playerLe_trans (a b c : Player) (h1 : playerLe a b = true)
    (h2 : playerLe b c = true) : playerLe a c = true := by
  simp [playerLe] at *
  omega

/-- Helper for C6: playerLe is total. -/
theorem playerLe_total (a b : Player) :
    (playerLe a b || playerLe b a) = true := by
  simp [playerLe]
  omega

/-- C6: the leaderboard is a permutation of the input player list, its
scores are non-increasing, and it is stable on ties: for every score
value, the sub-list of players holding that score is exactly the same,
in the same order, as in the input list. -/
theorem sortedPlayers_spec (ps : List Player) :
    (sortedPlayers ps).Perm ps ∧
    (sortedPlayers ps).Pairwise (fun a b => b.score ≤ a.score) ∧
    ∀ k : Int, (sortedPlayers ps).filter (fun p => p.score = k)
      = ps.filter (fun p => p.score = k) := by
  refine ⟨List.mergeSort_perm ps playerLe, ?_, ?_⟩
  · have h := List.sorted_mergeSort playerLe_trans playerLe_total ps
    exact h.imp (fun hab => by
      have := hab
      simpa [playerLe] using this)
  · intro k
    set pred : Player → Bool := fun p => decide (p.score = k) with hpred
    have hmemscore : ∀ x ∈ ps.filter pred, x.score = k := by
      intro x hx
      have := (List.mem_filter.mp hx).2
      simpa [hpred] using this
    have hpair : (ps.filter pred).Pairwise
        (fun a b => playerLe a b = true) := by
      refine List.pairwise_of_forall_mem_list ?_
      intro a ha b hb
      have hak := hmemscore a ha
      have hbk := hmemscore b hb
      simp [playerLe, hak, hbk]
    have hsub : (ps.filter pred).Sublist (sortedPlayers ps) :=
      List.sublist_mergeSort playerLe_trans playerLe_total hpair
        (List.filter_sublist ps)
    have hself : (ps.filter pred).filter pred = ps.filter pred := by
      refine List.filter_eq_self.mpr ?_
      intro a ha
      exact (List.mem_filter.mp ha).2
    have hsubf : (ps.filter pred).Sublist
        ((sortedPlayers ps).filter pred) := by
      have := List.Sublist.filter pred hsub
      rwa [hself] at this
    have hperm : ((sortedPlayers ps).filter pred).Perm (ps.filter pred) :=
      List.Perm.filter pred (List.mergeSort_perm ps playerLe)
    have hlen : (ps.filter pred).length
        = ((sortedPlayers ps).filter pred).length :=
      (hperm.length_eq).symm
    exact (List.Sublist.eq_of_length hsubf hlen).symm

/-- Outbound socket commands, one constructor per socket.emit call,
source lines 286, 305, 322, 333, 344, 355. -/
inductive OutCommand
  | roomCreate (nickname : String)
  | roomJoin (roomCode : String) (nickname : String)
  | gameStart
  | gameEnd
  | gamePlayAgain
  | gameGuess (guess : String)
deriving DecidableEq

/-- The APP_STATUS constant, source line 52: the environment value, or
"enabled" when absent, lower-cased. -/
def APP_STATUS (envValue : Option String) : String :=
  jsToLower (envValue.getD "enabled")

/-- The createRoom submit handler, source lines 278-293, as a function
from the app-status value, the socket readiness and the state to the new
state and the list of emitted commands.  The acknowledgement callback is
modelled separately by createRoomAck. -/
def createRoom (appStatusValue : String) (socketReady : Bool)
    (s : ClientState) : ClientState × List OutCommand :=
  if appStatusValue ≠ "enabled" then
    ({ s with error := "Game is in maintenance mode." }, [])
  else if jsTrim s.nickname = "" then
    ({ s with error := "Nickname is required." }, [])
  else
    let s1 := { s with busy := true, error := "" }
    if socketReady then (s1, [OutCommand.roomCreate (jsTrim s.nickname)])
    else ({ s1 with error := "Socket is not ready" }, [])

/-- The joinRoom submit handler, source lines 295-316, modelled like
createRoom. -/
def joinRoom (appStatusValue : String) (socketReady : Bool)
    (s : ClientState) : ClientState × List OutCommand :=
  if appStatusValue ≠ "enabled" then
    ({ s with error := "Game is in maintenance mode." }, [])
  else if jsTrim s.nickname = "" ∨ jsTrim s.roomCodeInput = "" then
    ({ s with error := "Nickname and room code are required." }, [])
  else
    let s1 := { s with busy := true, error := "" }
    if socketReady then
      (s1, [OutCommand.roomJoin (jsToUpper (jsTrim s.roomCodeInput))
        (jsTrim s.nickname)])
    else ({ s1 with error := "Socket is not ready" }, [])

/-- Acknowledgement payload of room:create and room:join, source lines
286 and 308. -/
structure JoinAck where
  ok : Bool
  message : Option String
  playerId : Option String
deriving DecidableEq

/-- Acknowledgement payload of game:start, game:end and game:playAgain,
source lines 322, 333 and 344. -/
structure SimpleAck where
  ok : Bool
  message : Option String
deriving DecidableEq

/-- The room:create acknowledgement callback, source lines 286-291. -/
def createRoomAck (s : ClientState) (result : JoinAck) : ClientState :=
  let s1 := { s with busy := false }
  if !result.ok then
    { s1 with error := result.message.getD "Failed to create room" }
  else
    { s1 with playerId := result.playerId.getD "", isJoined := true }

/-- The room:join acknowledgement callback, source lines 308-313. -/
def joinRoomAck (s : ClientState) (result : JoinAck) : ClientState :=
  let s1 := { s with busy := false }
  if !result.ok then
    { s1 with error := result.message.getD "Failed to join room" }
  else
    { s1 with playerId := result.playerId.getD "", isJoined := true }

/-- The game:start acknowledgement callback, source lines 322-325. -/
def startGameAck (s : ClientState) (result : SimpleAck) : ClientState :=
  let s1 := { s with busy := false }
  if !result.ok then
    { s1 with error := result.message.getD "Failed to start game" }
  else s1

/-- The game:end acknowledgement callback, source lines 333-336. -/
def endGameAck (s : ClientState) (result : SimpleAck) : ClientState :=
  let s1 := { s with busy := false }
  if !result.ok then
    { s1 with error := result.message.getD "Failed to end game" }
  else s1

/-- The game:playAgain acknowledgement callback, source lines 344-347. -/
def playAgainAck (s : ClientState) (result : SimpleAck) : ClientState :=
  let s1 := { s with busy := false }
  if !result.ok then
    { s1 with error := result.message.getD "Failed to reset room" }
  else s1

/-- C7: for each of the five acknowledged commands, an ok:false
acknowledgement produces exactly the prior state with busy released and
the error set to the carried message when present or the command default
otherwise; every other field (playerId, joined flag, room state, and the
rest) is unchanged, as the record-update equalities state. -/
theorem ack_failure_spec (s : ClientState) (msg : Option String)
    (pid : Option String) :
    createRoomAck s ⟨false, msg, pid⟩
      = { s with busy := false,
                 error := msg.getD "Failed to create room" } ∧
    joinRoomAck s ⟨false, msg, pid⟩
      = { s with busy := false,
                 error := msg.getD "Failed to join room" } ∧
    startGameAck s ⟨false, msg⟩
      = { s with busy := false,
                 error := msg.getD "Failed to start game" } ∧
    endGameAck s ⟨false, msg⟩
      = { s with busy := false,
                 error := msg.getD "Failed to end game" } ∧
    playAgainAck s ⟨false, msg⟩
      = { s with busy := false,
                 error := msg.getD "Failed to reset room" } := by
  exact ⟨rfl, rfl, rfl, rfl, rfl⟩

/-- C8: when the app-status flag is anything but the recognised value
"enabled", submitting the create form or the join form yields exactly the
local maintenance error and emits no command; likewise, with the flag
enabled, a blank nickname short-circuits createRoom and a blank nickname
or blank room code short-circuits joinRoom with their local errors and no
emitted command. -/
theorem local_precondition_short_circuit (env : Option String)
    (socketReady : Bool) (s : ClientState)
    (h : APP_STATUS env ≠ "enabled") :
    createRoom (APP_STATUS env) socketReady s
      = ({ s with error := "Game is in maintenance mode." }, []) ∧
    joinRoom (APP_STATUS env) socketReady s
      = ({ s with error := "Game is in maintenance mode." }, []) ∧
    (∀ s2 : ClientState, jsTrim s2.nickname = "" →
      createRoom "enabled" socketReady s2
        = ({ s2 with error := "Nickname is required." }, [])) ∧
    (∀ s2 : ClientState,
      jsTrim s2.nickname = "" ∨ jsTrim s2.roomCodeInput = "" →
      joinRoom "enabled" socketReady s2
        = ({ s2 with error := "Nickname and room code are required." },
           [])) := by
  refine ⟨?_, ?_, ?_, ?_⟩
  · simp [createRoom, h]
  · simp [joinRoom, h]
  · intro s2 h2
    simp [createRoom, h2]
  · intro s2 h2
    rcases h2 with h2 | h2 <;> simp [joinRoom, h2]

/-- C8 witness: the theorem instantiated at the environment value
"disabled" and the initial state. -/
theorem local_precondition_short_circuit_witness :
    APP_STATUS (some "disabled") ≠ "enabled" ∧
    (createRoom (APP_STATUS (some "disabled")) true (initialState none)
      = ({ initialState none with
            error := "Game is in maintenance mode." }, []) ∧
    joinRoom (APP_STATUS (some "disabled")) true (initialState none)
      = ({ initialState none with
            error := "Game is in maintenance mode." }, []) ∧
    (∀ s2 : ClientState, jsTrim s2.nickname = "" →
      createRoom "enabled" true s2
        = ({ s2 with error := "Nickname is required." }, [])) ∧
    (∀ s2 : ClientState,
      jsTrim s2.nickname = "" ∨ jsTrim s2.roomCodeInput = "" →
      joinRoom "enabled" true s2
        = ({ s2 with error := "Nickname and room code are required." },
           []))) :=
  ⟨by decide, local_precondition_short_circuit (some "disabled") true
    (initialState none) (by decide)⟩

end WordDash
